import Mathlib

/-!
Verification of the MeshCore frame transport and protocol decoder.

The Python source is shallowly embedded: byte strings become `List Nat`
(each element a byte value), the mutable decoder object becomes an explicit
`DecoderState` threaded through pure functions, and every decode routine
returns the successor state together with the events it would have handed to
the event callback.  The Python runtime's UTF-8 lossy text decoding
(`bytes.decode('utf-8', errors='ignore')`) and `str.isprintable` are
abstracted as function parameters `utf8` and `printable`, since no verified
property depends on their concrete behaviour.
-/

set_option maxRecDepth 100000
set_option maxHeartbeats 1000000
set_option linter.unusedVariables false

/-! ### Byte and string helpers (Python runtime primitives used by the source) -/

/-- Lower-case hex digit for a value below 16, as produced by Python `"%x"`. -/
def hexDigit (n : Nat) : Char :=
  if n < 10 then Char.ofNat (48 + n) else Char.ofNat (87 + n)

/-- Python `f"{b:02x}"` for a byte value. -/
def byteHex (b : Nat) : String :=
  String.mk [hexDigit (b / 16 % 16), hexDigit (b % 16)]

/-- Python `bytes.hex()`. -/
def bytesToHex (l : List Nat) : String :=
  String.join (l.map byteHex)

/-- Python `struct.unpack('<H', ...)` on two bytes. -/
def u16le (lo hi : Nat) : Nat := lo + 256 * hi

/-- Python `struct.unpack('<I', ...)` on a four-byte slice. -/
def u32le (l : List Nat) : Nat :=
  l.getD 0 0 + 256 * l.getD 1 0 + 65536 * l.getD 2 0 + 16777216 * l.getD 3 0

/-- Python `struct.unpack('b', ...)`: a byte reinterpreted as signed. -/
def signedByte (b : Nat) : Int :=
  if b < 128 then (b : Int) else (b : Int) - 256

/-- Python `struct.unpack('<i', ...)`: a 32-bit value reinterpreted as signed. -/
def signed32 (n : Nat) : Int :=
  if n < 2147483648 then (n : Int) else (n : Int) - 4294967296

/-- Python `s.rstrip('\x00')`. -/
def rstripNull (s : String) : String :=
  String.mk ((s.data.reverse.dropWhile (fun c => c = Char.ofNat 0)).reverse)

/-- Locate the first occurrence of `": "` in a character list, returning the
text before and after it; models Python `': ' in text` / `text.split(': ', 1)`. -/
def splitColonSpace : List Char → Option (List Char × List Char)
  | [] => none
  | ':' :: ' ' :: rest => some ([], rest)
  | c :: rest =>
    match splitColonSpace rest with
    | some p => some (c :: p.1, p.2)
    | none => none

/-- The `sender`/`message` extraction pattern used by the message decoders:
if the text contains `": "`, split once, else keep a default sender. -/
def splitSender (text dfltSender : String) : String × String :=
  match splitColonSpace text.data with
  | some p => (String.mk p.1, String.mk p.2)
  | none => (dfltSender, text)

/-- Python `bytes.split(b'\x00')`. -/
def splitOnZero : List Nat → List (List Nat)
  | [] => [[]]
  | 0 :: rest => [] :: splitOnZero rest
  | b :: rest =>
    match splitOnZero rest with
    | [] => [[b]]
    | h :: t => (b :: h) :: t

/-- Python `dict.get(k, dflt)` over an insertion-ordered association list. -/
def dictGet {α : Type} (d : List (String × α)) (k : String) (dflt : α) : α :=
  match d.find? (fun p => p.1 == k) with
  | some p => p.2
  | none => dflt

/-- Python `d[k] = v` over an insertion-ordered association list: overwrite in
place when the key exists, else append. -/
def dictSet {α : Type} (d : List (String × α)) (k : String) (v : α) : List (String × α) :=
  if d.any (fun p => p.1 == k) then d.map (fun p => if p.1 == k then (k, v) else p)
  else d ++ [(k, v)]

/-! ### Frame Transport (`MeshCoreConnection`, src/meshcore_connection.py) -/

/-- Embeds `MeshCoreConnection.process_buffer`.  Input: the current buffer
contents; output: the frames handed to the frame callback, in order, and the
buffer left behind.  While at least 3 bytes remain: a leading `0x3E` marker is
followed by a little-endian u16 length; a complete frame is sliced out and
the buffer advanced, an incomplete one stops the loop, and a non-marker
leading byte is popped (resynchronization). -/
def process_buffer : List Nat → List (List Nat) × List Nat
  | [] => ([], [])
  | [a] => ([], [a])
  | [a, b] => ([], [a, b])
  | m :: l :: h :: rest =>
    if m = 0x3E then
      let frameLen := u16le l h
      if frameLen ≤ rest.length then
        let r := process_buffer (rest.drop frameLen)
        (rest.take frameLen :: r.1, r.2)
      else ([], m :: l :: h :: rest)
    else process_buffer (l :: h :: rest)
termination_by buf => buf.length
decreasing_by
  · simp [u16le]
    omega
  · simp

/-- Connection-level state relevant to buffering: the fields of
`MeshCoreConnection.__init__` that the read loop mutates. -/
structure ConnState where
  buffer : List Nat
  connected : Bool
  running : Bool
deriving DecidableEq

/-- Embeds `MeshCoreConnection.connect`: on success the connection is marked
up (and the initialization handshake is sent, an outbound-only effect); on
failure it is marked down.  The byte buffer is not touched in either case. -/
def connect (s : ConnState) (ok : Bool) : ConnState :=
  if ok then { s with connected := true } else { s with connected := false }

/-- Embeds the error path of `MeshCoreConnection.read_loop`: a transport
exception marks the connection down and nothing else. -/
def connection_error (s : ConnState) : ConnState :=
  { s with connected := false }

/-- Embeds one successful read iteration of `MeshCoreConnection.read_loop`:
append the freshly read chunk to the buffer and run `process_buffer`,
returning the new state and the frames dispatched to the callback. -/
def read_data (s : ConnState) (data : List Nat) : ConnState × List (List Nat) :=
  let r := process_buffer (s.buffer ++ data)
  ({ s with buffer := r.2 }, r.1)

/-- Feeding one chunk to the transport, tracking all frames extracted so far:
the accumulator holds (frames so far, current buffer). -/
def feedChunk (st : List (List Nat) × List Nat) (chunk : List Nat) :
    List (List Nat) × List Nat :=
  let r := process_buffer (st.2 ++ chunk)
  (st.1 ++ r.1, r.2)

/-- Feeding a sequence of chunks, in order, to a fresh transport. -/
def feedChunks (chunks : List (List Nat)) : List (List Nat) × List Nat :=
  chunks.foldl feedChunk ([], [])

/-- The inbound wire framing parsed by `process_buffer`:
`0x3E | length:u16-LE | payload`. -/
def encodeInbound (f : List Nat) : List Nat :=
  0x3E :: f.length % 256 :: f.length / 256 :: f

/-! ### Protocol Decoder data model (`MeshCoreDecoder`, src/meshcore_decoder.py) -/

/-- One entry of the pending-contacts list built during bootstrap
(the dict `{'name':…, 'type':…, 'pubkey':…}` appended to `initial_contacts`). -/
structure ContactRec where
  name : String
  nodeType : String
  pubkey : String
deriving DecidableEq

/-- The structured events emitted by the decoder (`MeshEvent.data` per kind;
the wall-clock `timestamp=datetime.now()` field is not modelled).  Direct
messages have two shapes because the 0x10 and 0x07 decoders populate
different data keys. -/
inductive MeshEvent where
  | channelMessage (sender message : String) (channel hops timestamp : Nat)
  | directMessage10 (sender message : String) (channel hops timestamp : Nat)
  | directMessage07 (sender senderKey message : String) (hops : Nat)
  | meshPacket (length : Nat) (hex : String) (header subtype pubkey nodeName : Option String)
  | advertisement (pubkey name : String)
  | contact (pubkey name nodeType : String)
  | ack (ackCode : String) (rttMs : Nat)
  | rawData (snrDb : Rat) (rssiDbm : Int) (payload : String)
  | traceShort (hex error : String)
  | trace (hex : String) (pathLen flags : Nat) (tag authCode : Int)
      (pathHashes : List String) (pathSNRs : List Rat)
  | contactSummary (total : Nat) (byType : List (String × Nat)) (contacts : List ContactRec)
deriving DecidableEq

/-- The mutable fields of `MeshCoreDecoder.__init__`: the contact directory,
the bootstrap flag, the pending list, and the stats counters. -/
structure DecoderState where
  contacts : List (String × String)
  initial_contact_loading : Bool
  initial_contacts : List ContactRec
  frames : Nat
  messages : Nat
  mesh_packets : Nat
  adverts : Nat
deriving DecidableEq

/-- The decoder state built by `MeshCoreDecoder.__init__`. -/
def initState : DecoderState :=
  { contacts := []
    initial_contact_loading := true
    initial_contacts := []
    frames := 0
    messages := 0
    mesh_packets := 0
    adverts := 0 }

/-- Subtype field of a mesh-packet event (`data.get('subtype')`). -/
def MeshEvent.meshSubtype : MeshEvent → Option String
  | .meshPacket _ _ _ subtype _ _ => subtype
  | _ => none

/-- Resolved sender/name field of the events whose decoders consult the
contact directory. -/
def MeshEvent.senderName : MeshEvent → String
  | .directMessage10 sender _ _ _ _ => sender
  | .directMessage07 sender _ _ _ => sender
  | .advertisement _ name => name
  | _ => ""

/-- Path-hash list of a trace event, empty for every other event. -/
def MeshEvent.tracePathHashes : MeshEvent → List String
  | .trace _ _ _ _ _ hs _ => hs
  | _ => []

/-- Path-SNR list of a trace event, empty for every other event. -/
def MeshEvent.tracePathSNRs : MeshEvent → List Rat
  | .trace _ _ _ _ _ _ snrs => snrs
  | _ => []

/-- Whether an event is a structured (non-error) trace event. -/
def MeshEvent.isFullTrace : MeshEvent → Bool
  | .trace _ _ _ _ _ _ _ => true
  | _ => false

/-! ### Per-opcode decode routines

Each embeds the correspondingly named `MeshCoreDecoder._decode_*` method:
it takes the state the method would see in `self` and the frame bytes, and
returns the updated state plus the event the method returns (`none` for the
Python `return None` paths). -/

section Decoder

variable (utf8 : List Nat → String) (printable : Char → Bool)

/-- Embeds `_decode_channel_message` (opcode 0x08). -/
def decode_channel_message (s : DecoderState) (f : List Nat) :
    DecoderState × Option MeshEvent :=
  if f.length < 8 then (s, none)
  else
    let s := { s with messages := s.messages + 1 }
    let channel := f.getD 1 0
    let hop_count := if f.getD 2 0 = 0xFF then 0 else f.getD 2 0
    let timestamp := if 8 ≤ f.length then u32le ((f.drop 4).take 4) else 0
    let text := if 8 < f.length then utf8 (f.drop 8) else ""
    let sm := splitSender text "Unknown"
    (s, some (.channelMessage sm.1 sm.2 channel hop_count timestamp))

/-- Embeds `_decode_0x10_message` (opcode 0x10). -/
def decode_0x10_message (s : DecoderState) (f : List Nat) :
    DecoderState × Option MeshEvent :=
  if f.length < 16 then (s, none)
  else
    let s := { s with messages := s.messages + 1 }
    let sender_key := bytesToHex ((f.drop 4).take 6)
    let hops := if f.getD 10 0 = 0xFF then 0 else f.getD 10 0
    let timestamp := if 16 ≤ f.length then u32le ((f.drop 12).take 4) else 0
    let text := if 16 < f.length then utf8 (f.drop 16) else ""
    let sender := dictGet s.contacts (sender_key.take 12) (sender_key.take 8 ++ "...")
    (s, some (.directMessage10 sender text 0 hops timestamp))

/-- Embeds `_decode_0x11_message` (opcode 0x11). -/
def decode_0x11_message (s : DecoderState) (f : List Nat) :
    DecoderState × Option MeshEvent :=
  if f.length < 11 then (s, none)
  else
    let s := { s with messages := s.messages + 1 }
    let channel := f.getD 4 0
    let hops := if f.getD 5 0 = 0xFF then 0 else f.getD 5 0
    let timestamp := if 10 ≤ f.length then u32le ((f.drop 6).take 4) else 0
    let full_text := if 11 < f.length then utf8 (f.drop 11) else ""
    let sm := splitSender full_text ("Channel #" ++ toString channel)
    (s, some (.channelMessage sm.1 sm.2 channel hops timestamp))

/-- Embeds `_decode_direct_message` (opcode 0x07). -/
def decode_direct_message (s : DecoderState) (f : List Nat) :
    DecoderState × Option MeshEvent :=
  if f.length < 13 then (s, none)
  else
    let s := { s with messages := s.messages + 1 }
    let sender_key := bytesToHex ((f.drop 1).take 6)
    let hop_count := if f.getD 7 0 = 0xFF then 0 else f.getD 7 0
    let text := if 13 < f.length then utf8 (f.drop 13) else ""
    let sender := dictGet s.contacts (sender_key.take 12) (sender_key.take 8 ++ "...")
    (s, some (.directMessage07 sender sender_key text hop_count))

/-- Embeds `_decode_mesh_packet` (opcode 0x88). -/
def decode_mesh_packet (s : DecoderState) (f : List Nat) :
    DecoderState × Option MeshEvent :=
  let s := { s with mesh_packets := s.mesh_packets + 1 }
  let data := f.drop 1
  if data.length < 2 then
    (s, some (.meshPacket data.length (bytesToHex data) none none none none))
  else
    let header := byteHex (data.getD 0 0) ++ byteHex (data.getD 1 0)
    if 100 < data.length then
      let pubkey := [4, 6, 8].findSome? (fun off =>
        if off + 32 ≤ data.length then
          let possible := (data.drop off).take 32
          if possible.any (fun b => b != 0 && b != 0xFF) then some (bytesToHex possible)
          else none
        else none)
      let tail := data.drop (data.length - 50)
      let nodeName :=
        if tail.contains 0 then
          (splitOnZero tail).reverse.findSome? (fun part =>
            if 3 < part.length then
              let nm := utf8 part
              if nm.data.all (fun c => printable c || c == '-' || c == '_') then some nm
              else none
            else none)
        else none
      (s, some (.meshPacket data.length (bytesToHex data) (some header)
        (some "ADVERTISEMENT") pubkey nodeName))
    else if data.length < 20 then
      (s, some (.meshPacket data.length (bytesToHex data) (some header) (some "BEACON")
        none none))
    else
      (s, some (.meshPacket data.length (bytesToHex data) (some header) (some "DATA")
        none none))

/-- Embeds `_decode_advertisement` (opcode 0x80). -/
def decode_advertisement (s : DecoderState) (f : List Nat) :
    DecoderState × Option MeshEvent :=
  if f.length < 33 then (s, none)
  else
    let s := { s with adverts := s.adverts + 1 }
    let pubkey := bytesToHex ((f.drop 1).take 32)
    let name := dictGet s.contacts (pubkey.take 12) "Unknown"
    (s, some (.advertisement pubkey name))

/-- The contact fields `_decode_contact` parses out of a (≥100-byte) frame:
pubkey hex, node-type string, and the NUL-stripped name from bytes 100..132. -/
def contactRecOf (f : List Nat) : ContactRec :=
  let pubkey := bytesToHex ((f.drop 1).take 32)
  let node_type := if 33 < f.length then f.getD 33 0 else 0
  let name_data := if 132 ≤ f.length then (f.drop 100).take 32 else []
  let name := rstripNull (utf8 name_data)
  let type_str :=
    if node_type = 1 then "CHAT"
    else if node_type = 2 then "REPEATER"
    else if node_type = 3 then "ROOM"
    else "TYPE_" ++ toString node_type
  { name := name, nodeType := type_str, pubkey := pubkey }

/-- Embeds `_decode_contact` (opcode 0x03): always updates the directory;
during bootstrap it appends to the pending list and emits nothing, afterwards
it emits a contact event. -/
def decode_contact (s : DecoderState) (f : List Nat) :
    DecoderState × Option MeshEvent :=
  if f.length < 100 then (s, none)
  else
    let r := contactRecOf utf8 f
    let s := { s with contacts := dictSet s.contacts (r.pubkey.take 12) r.name }
    if s.initial_contact_loading then
      ({ s with initial_contacts := s.initial_contacts ++ [r] }, none)
    else
      (s, some (.contact r.pubkey r.name r.nodeType))

/-- Embeds `_decode_ack` (opcode 0x82). -/
def decode_ack (s : DecoderState) (f : List Nat) : DecoderState × Option MeshEvent :=
  if f.length < 9 then (s, none)
  else
    let ack_code := bytesToHex ((f.drop 1).take 4)
    let rtt := u32le ((f.drop 5).take 4)
    (s, some (.ack ack_code rtt))

/-- Embeds `_decode_raw_data` (opcode 0x84). -/
def decode_raw_data (s : DecoderState) (f : List Nat) : DecoderState × Option MeshEvent :=
  if f.length < 4 then (s, none)
  else
    let snr : Rat := (signedByte (f.getD 1 0) : Rat) / 4
    let rssi := signedByte (f.getD 2 0)
    let payload := if 4 < f.length then bytesToHex (f.drop 4) else ""
    (s, some (.rawData snr rssi payload))

/-- Embeds `_decode_trace` (opcode 0x89).  The method never touches decoder
state, so it is a pure function of the frame bytes.  Frames under 12 bytes
yield an error-marker event; otherwise the header is parsed and the
path-hash and SNR lists are filled only when the respective region is
entirely present in the frame. -/
def decode_trace (f : List Nat) : MeshEvent :=
  if f.length < 12 then .traceShort (bytesToHex f) "packet too short"
  else
    let path_len := f.getD 2 0
    let flags := f.getD 3 0
    let tag := signed32 (u32le ((f.drop 4).take 4))
    let auth_code := signed32 (u32le ((f.drop 8).take 4))
    let path_hashes :=
      if 12 + path_len ≤ f.length then ((f.drop 12).take path_len).map byteHex else []
    let snr_start := 12 + path_len
    let path_snrs :=
      if snr_start + (path_len + 1) ≤ f.length then
        ((f.drop snr_start).take (path_len + 1)).map (fun b => (signedByte b : Rat) / 4)
      else []
    .trace (bytesToHex f) path_len flags tag auth_code path_hashes path_snrs

/-- The per-type count aggregation in `finalize_initial_contacts`:
`type_counts[t] = type_counts.get(t, 0) + 1` over the pending list. -/
def countByType (l : List ContactRec) : List (String × Nat) :=
  l.foldl (fun d c => dictSet d c.nodeType (dictGet d c.nodeType 0 + 1)) []

/-- Embeds `MeshCoreDecoder.finalize_initial_contacts`: a no-op when the
bootstrap flag is already cleared; otherwise clears it, emits one
contact-summary event (total, per-type counts, full pending list) and then
discards the pending list. -/
def finalize_initial_contacts (s : DecoderState) : DecoderState × List MeshEvent :=
  if s.initial_contact_loading = false then (s, [])
  else
    let s := { s with initial_contact_loading := false }
    let ev := MeshEvent.contactSummary s.initial_contacts.length
      (countByType s.initial_contacts) s.initial_contacts
    ({ s with initial_contacts := [] }, [ev])

/-- Lift a (state, optional event) pair to the list of events actually handed
to the event callback by `decode_frame`. -/
def emitOpt (p : DecoderState × Option MeshEvent) : DecoderState × List MeshEvent :=
  (p.1, p.2.toList)

/-- Embeds `MeshCoreDecoder.decode_frame`: empty frames return immediately
with nothing changed; otherwise the frames counter is incremented and the
frame is dispatched on its opcode byte.  The returned list holds the events
passed to the event callback (END_CONTACTS may emit the contact summary;
MSG_WAITING and unknown opcodes emit nothing). -/
def decode_frame (s : DecoderState) (f : List Nat) : DecoderState × List MeshEvent :=
  match f with
  | [] => (s, [])
  | code :: _ =>
    let s := { s with frames := s.frames + 1 }
    if code = 0x08 then emitOpt (decode_channel_message utf8 s f)
    else if code = 0x10 then emitOpt (decode_0x10_message utf8 s f)
    else if code = 0x11 then emitOpt (decode_0x11_message utf8 s f)
    else if code = 0x07 then emitOpt (decode_direct_message utf8 s f)
    else if code = 0x88 then emitOpt (decode_mesh_packet utf8 printable s f)
    else if code = 0x80 then emitOpt (decode_advertisement s f)
    else if code = 0x03 then emitOpt (decode_contact utf8 s f)
    else if code = 0x04 then finalize_initial_contacts s
    else if code = 0x82 then emitOpt (decode_ack s f)
    else if code = 0x84 then emitOpt (decode_raw_data s f)
    else if code = 0x89 then (s, [decode_trace f])
    else if code = 0x83 then (s, [])
    else (s, [])

/-- Decoding a whole sequence of frames in order, keeping the final state. -/
def decode_frames (s : DecoderState) (l : List (List Nat)) : DecoderState :=
  l.foldl (fun st f => (decode_frame utf8 printable st f).1) s

end Decoder

/-- A concrete stand-in for Python UTF-8 lossy decoding, used to instantiate
closed witness statements. -/
def utf8Stub : List Nat → String := fun _ => ""

/-- A concrete stand-in for Python `str.isprintable`, used to instantiate
closed witness statements. -/
def printableStub : Char → Bool := fun _ => true

/-! ### Transport lemmas: chunk-splitting invariance of `process_buffer` -/

/-- The buffer left behind by `process_buffer` is blocked: running the loop
again on it extracts nothing. -/
theorem process_buffer_resid (buf : List Nat) :
    process_buffer (process_buffer buf).2 = ([], (process_buffer buf).2) := by
  induction buf using process_buffer.induct with
  | case1 => simp [process_buffer]
  | case2 a => simp [process_buffer]
  | case3 a b => simp [process_buffer]
  | case4 l h rest fl hle ih =>
    have hle2 : u16le l h ≤ rest.length := hle
    have ha : process_buffer (62 :: l :: h :: rest) =
        (rest.take (u16le l h) :: (process_buffer (rest.drop (u16le l h))).1,
         (process_buffer (rest.drop (u16le l h))).2) := by
      simp [process_buffer, hle2]
    rw [ha]
    exact ih
  | case5 l h rest fl hgt =>
    have hgt2 : ¬ u16le l h ≤ rest.length := hgt
    have ha : process_buffer (62 :: l :: h :: rest) = ([], 62 :: l :: h :: rest) := by
      simp [process_buffer, hgt2]
    simp [ha]
  | case6 m l h rest hne ih =>
    have ha : process_buffer (m :: l :: h :: rest) = process_buffer (l :: h :: rest) := by
      simp [process_buffer, hne]
    rw [ha]
    exact ih

/-- Splitting the input to `process_buffer` at any point composes: processing
`a ++ b` extracts first exactly what processing `a` alone extracts, then what
processing the leftover of `a` followed by `b` extracts. -/
theorem process_buffer_append (a b : List Nat) :
    process_buffer (a ++ b) =
      ((process_buffer a).1 ++ (process_buffer ((process_buffer a).2 ++ b)).1,
       (process_buffer ((process_buffer a).2 ++ b)).2) := by
  induction a using process_buffer.induct with
  | case1 => simp [process_buffer]
  | case2 a => simp [process_buffer]
  | case3 a b => simp [process_buffer]
  | case4 l h rest fl hle ih =>
    have hle2 : u16le l h ≤ rest.length := hle
    have hle3 : u16le l h ≤ (rest ++ b).length := by
      simp only [List.length_append]
      omega
    have ha : process_buffer (62 :: l :: h :: rest) =
        (rest.take (u16le l h) :: (process_buffer (rest.drop (u16le l h))).1,
         (process_buffer (rest.drop (u16le l h))).2) := by
      simp [process_buffer, hle2]
    have hb : process_buffer ((62 :: l :: h :: rest) ++ b) =
        ((rest ++ b).take (u16le l h) :: (process_buffer ((rest ++ b).drop (u16le l h))).1,
         (process_buffer ((rest ++ b).drop (u16le l h))).2) := by
      simp only [List.cons_append]
      simp [process_buffer, hle3]
      omega
    rw [hb, ha, List.take_append_of_le_length hle2, List.drop_append_of_le_length hle2]
    simp [ih]
  | case5 l h rest fl hgt =>
    have hgt2 : ¬ u16le l h ≤ rest.length := hgt
    have ha : process_buffer (62 :: l :: h :: rest) = ([], 62 :: l :: h :: rest) := by
      simp [process_buffer, hgt2]
    rw [ha]
    simp
  | case6 m l h rest hne ih =>
    have ha : process_buffer (m :: l :: h :: rest) = process_buffer (l :: h :: rest) := by
      simp [process_buffer, hne]
    have hb : process_buffer ((m :: l :: h :: rest) ++ b) =
        process_buffer ((l :: h :: rest) ++ b) := by
      simp only [List.cons_append]
      simp [process_buffer, hne]
    rw [hb, ha]
    exact ih

/-- Folding `feedChunk` over a chunk list, starting from a blocked leftover
buffer, is the same as processing the leftover followed by all the chunks at
once. -/
theorem feedChunk_foldl (chunks : List (List Nat)) (fs : List (List Nat)) (r : List Nat)
    (hr : process_buffer r = ([], r)) :
    chunks.foldl feedChunk (fs, r) =
      (fs ++ (process_buffer (r ++ chunks.flatten)).1,
       (process_buffer (r ++ chunks.flatten)).2) := by
  induction chunks generalizing fs r with
  | nil => simp [hr]
  | cons c cs ih =>
    rw [List.foldl_cons,
      show feedChunk (fs, r) c =
        (fs ++ (process_buffer (r ++ c)).1, (process_buffer (r ++ c)).2) from rfl,
      ih _ _ (process_buffer_resid (r ++ c)), List.flatten_cons,
      show r ++ (c ++ cs.flatten) = (r ++ c) ++ cs.flatten from
        (List.append_assoc r c cs.flatten).symm,
      process_buffer_append (r ++ c) cs.flatten]
    simp

/-- A concatenation of wire-encoded frames is parsed back, in one shot, to
exactly those frames with an empty leftover buffer. -/
theorem process_buffer_encoded (fs : List (List Nat)) :
    process_buffer (fs.map encodeInbound).flatten = (fs, []) := by
  induction fs with
  | nil => simp [process_buffer]
  | cons f fs ih =>
    have hlen : u16le (f.length % 256) (f.length / 256) = f.length := by
      simp [u16le, Nat.mod_add_div]
    have hle : u16le (f.length % 256) (f.length / 256) ≤
        (f ++ (fs.map encodeInbound).flatten).length := by
      simp only [List.length_append, hlen]
      omega
    have ha : process_buffer (62 :: f.length % 256 :: f.length / 256 ::
        (f ++ (fs.map encodeInbound).flatten)) =
        ((f ++ (fs.map encodeInbound).flatten).take (u16le (f.length % 256) (f.length / 256)) ::
          (process_buffer ((f ++ (fs.map encodeInbound).flatten).drop
            (u16le (f.length % 256) (f.length / 256)))).1,
         (process_buffer ((f ++ (fs.map encodeInbound).flatten).drop
            (u16le (f.length % 256) (f.length / 256)))).2) := by
      simp [process_buffer, hle]
      simp only [List.length_append] at hle
      omega
    simp only [List.map_cons, List.flatten_cons, encodeInbound, List.cons_append]
    rw [ha, hlen, List.take_left, List.drop_left]
    simp [ih]

/-! ### Claims about the Frame Transport -/

/-- C5: For every byte sequence that is a concatenation of valid inbound
frames, and for every way of partitioning that sequence into arbitrary-sized
chunks, feeding the chunks in order to the transport's buffer-processing
step produces exactly the same sequence of extracted frames, in the same
order, as feeding the entire sequence in a single chunk — namely the
original frame sequence itself. -/
theorem chunked_feed_eq_single (fs chunks : List (List Nat))
    (hval : ∀ f ∈ fs, f.length < 65536)
    (hchunks : chunks.flatten = (fs.map encodeInbound).flatten) :
    (feedChunks chunks).1 = (feedChunks [(fs.map encodeInbound).flatten]).1 ∧
    (feedChunks chunks).1 = fs := by
  have hzero : process_buffer ([] : List Nat) = ([], []) := by simp [process_buffer]
  have h1 : feedChunks chunks = process_buffer chunks.flatten := by
    have h := feedChunk_foldl chunks [] [] hzero
    simpa [feedChunks] using h
  have h2 : feedChunks [(fs.map encodeInbound).flatten] =
      process_buffer (fs.map encodeInbound).flatten := by
    have h := feedChunk_foldl [(fs.map encodeInbound).flatten] [] [] hzero
    simpa [feedChunks] using h
  rw [h1, h2, hchunks, process_buffer_encoded]
  exact ⟨rfl, rfl⟩

/-- C5 witness: the two frames `[0x07]` and `[0x01, 0x02]`, wire-encoded and
split across three uneven chunks, extract identically to a single-chunk
feed. -/
theorem chunked_feed_eq_single_witness :
    ((∀ f ∈ ([[7], [1, 2]] : List (List Nat)), f.length < 65536) ∧
      ([[62, 1], [0, 7, 62], [2, 0, 1, 2]] : List (List Nat)).flatten =
        (([[7], [1, 2]] : List (List Nat)).map encodeInbound).flatten) ∧
    ((feedChunks [[62, 1], [0, 7, 62], [2, 0, 1, 2]]).1 =
        (feedChunks [(([[7], [1, 2]] : List (List Nat)).map encodeInbound).flatten]).1 ∧
      (feedChunks [[62, 1], [0, 7, 62], [2, 0, 1, 2]]).1 = [[7], [1, 2]]) :=
  ⟨⟨by decide, by decide⟩,
    chunked_feed_eq_single [[7], [1, 2]] [[62, 1], [0, 7, 62], [2, 0, 1, 2]]
      (by decide) (by decide)⟩

/-- C1 (amended): on reconnect after a transport error, the in-memory byte
buffer is retained, not discarded: `connect` leaves the buffer untouched, so
bytes accumulated before the disconnect are carried into frame extraction on
the new connection. -/
theorem connect_preserves_buffer (s : ConnState) (ok : Bool) (data : List Nat) :
    (connect s ok).buffer = s.buffer ∧
    (read_data (connect s ok) data).2 = (process_buffer (s.buffer ++ data)).1 := by
  cases ok <;> simp [connect, read_data]

/-- The transport state just before a disconnect in the C1 counterexample:
a partial frame (marker `0x3E`, declared length 2, first payload byte 0xAA)
sits in the buffer. -/
def staleConn : ConnState := { buffer := [62, 2, 0, 170], connected := true, running := true }

/-- C1 counterexample: after a transport error and a reconnect, the buffer
still holds the pre-disconnect bytes (it is not discarded), and the first
read on the new connection extracts a frame `[0xAA, 0xBB]` that mixes a
pre-disconnect byte with a post-reconnect byte — with a discarded buffer the
same read would extract nothing. -/
theorem connect_buffer_counterexample :
    (connect (connection_error staleConn) true).buffer = [62, 2, 0, 170] ∧
    ([62, 2, 0, 170] : List Nat) ≠ [] ∧
    (read_data (connect (connection_error staleConn) true) [187]).2 = [[170, 187]] ∧
    (process_buffer [187]).1 = [] := by
  refine ⟨rfl, by decide, ?_, ?_⟩
  · simp [read_data, connect, connection_error, staleConn, process_buffer, u16le]
  · simp [process_buffer]

/-! ### Claims about the Protocol Decoder -/

/-- C10: an empty frame passed to `decode_frame` emits no event and leaves
the entire decoder state unchanged — directory, bootstrap flag, pending
list, and every counter including the frames-seen counter. -/
theorem decode_frame_empty (utf8 : List Nat → String) (printable : Char → Bool)
    (s : DecoderState) :
    decode_frame utf8 printable s [] = (s, []) := rfl

/-- The 19-byte example trace frame from the spec:
`89 00 03 00 | 01000000 | 00000000 | a1 b2 c3 | 32 28 1e 14` (pathLen = 3). -/
def traceExample : List Nat :=
  [0x89, 0x00, 0x03, 0x00, 0x01, 0, 0, 0, 0, 0, 0, 0, 0xA1, 0xB2, 0xC3, 0x32, 0x28, 0x1E, 0x14]

/-- C8: trace decode is a pure function of the frame bytes (`decode_trace`
takes nothing but the frame), and on the spec's example frame it produces
tag 1, authCode 0, pathHashes ["a1","b2","c3"], pathSNRs [12.5, 10, 7.5, 5]
(the raw signed bytes 50, 40, 30, 20 divided by 4), and a hop count
`len(pathSNRs) - 1 = 3`. -/
theorem trace_example_decode :
    decode_trace traceExample =
      MeshEvent.trace "890003000100000000000000a1b2c332281e14" 3 0 1 0
        ["a1", "b2", "c3"] [25/2, 10, 15/2, 5] ∧
    ((25 : Rat)/2 = 50/4 ∧ (10 : Rat) = 40/4 ∧ (15 : Rat)/2 = 30/4 ∧ (5 : Rat) = 20/4) ∧
    (decode_trace traceExample).tracePathSNRs.length - 1 = 3 := by
  have e1 : decode_trace traceExample =
      MeshEvent.trace (bytesToHex traceExample) 3 0 1 0
        (([0xA1, 0xB2, 0xC3] : List Nat).map byteHex)
        (([0x32, 0x28, 0x1E, 0x14] : List Nat).map (fun b => (signedByte b : Rat) / 4)) := by
    simp [decode_trace, traceExample, u32le, signed32]
  have e2 : (([0x32, 0x28, 0x1E, 0x14] : List Nat).map (fun b => (signedByte b : Rat)/4)) =
      [25/2, 10, 15/2, 5] := by
    norm_num [signedByte]
  have e3 : (([0xA1, 0xB2, 0xC3] : List Nat).map byteHex) = ["a1", "b2", "c3"] := by decide
  have e4 : bytesToHex traceExample = "890003000100000000000000a1b2c332281e14" := by decide
  refine ⟨?_, by norm_num, ?_⟩
  · rw [e1, e2, e3, e4]
  · rw [e1]
    simp [MeshEvent.tracePathSNRs]

/-! ### Bootstrap-flag lemmas -/

/-- `emitOpt` does not change the state component. -/
theorem emitOpt_fst (p : DecoderState × Option MeshEvent) : (emitOpt p).1 = p.1 := rfl

/-- The 0x08 decoder never touches the bootstrap flag. -/
theorem decode_channel_message_flag (utf8 : List Nat → String) (s : DecoderState)
    (f : List Nat) :
    (decode_channel_message utf8 s f).1.initial_contact_loading =
      s.initial_contact_loading := by
  simp only [decode_channel_message]
  split_ifs <;> rfl

/-- The 0x10 decoder never touches the bootstrap flag. -/
theorem decode_0x10_message_flag (utf8 : List Nat → String) (s : DecoderState)
    (f : List Nat) :
    (decode_0x10_message utf8 s f).1.initial_contact_loading =
      s.initial_contact_loading := by
  simp only [decode_0x10_message]
  split_ifs <;> rfl

/-- The 0x11 decoder never touches the bootstrap flag. -/
theorem decode_0x11_message_flag (utf8 : List Nat → String) (s : DecoderState)
    (f : List Nat) :
    (decode_0x11_message utf8 s f).1.initial_contact_loading =
      s.initial_contact_loading := by
  simp only [decode_0x11_message]
  split_ifs <;> rfl

/-- The 0x07 decoder never touches the bootstrap flag. -/
theorem decode_direct_message_flag (utf8 : List Nat → String) (s : DecoderState)
    (f : List Nat) :
    (decode_direct_message utf8 s f).1.initial_contact_loading =
      s.initial_contact_loading := by
  simp only [decode_direct_message]
  split_ifs <;> rfl

/-- The 0x88 decoder never touches the bootstrap flag. -/
theorem decode_mesh_packet_flag (utf8 : List Nat → String) (printable : Char → Bool)
    (s : DecoderState) (f : List Nat) :
    (decode_mesh_packet utf8 printable s f).1.initial_contact_loading =
      s.initial_contact_loading := by
  simp only [decode_mesh_packet]
  split_ifs <;> rfl

/-- The 0x80 decoder never touches the bootstrap flag. -/
theorem decode_advertisement_flag (s : DecoderState) (f : List Nat) :
    (decode_advertisement s f).1.initial_contact_loading =
      s.initial_contact_loading := by
  simp only [decode_advertisement]
  split_ifs <;> rfl

/-- The 0x03 decoder reads the bootstrap flag but never changes it. -/
theorem decode_contact_flag (utf8 : List Nat → String) (s : DecoderState) (f : List Nat) :
    (decode_contact utf8 s f).1.initial_contact_loading =
      s.initial_contact_loading := by
  simp only [decode_contact]
  split_ifs <;> rfl

/-- The 0x82 decoder never touches the bootstrap flag. -/
theorem decode_ack_flag (s : DecoderState) (f : List Nat) :
    (decode_ack s f).1.initial_contact_loading = s.initial_contact_loading := by
  simp only [decode_ack]
  split_ifs <;> rfl

/-- The 0x84 decoder never touches the bootstrap flag. -/
theorem decode_raw_data_flag (s : DecoderState) (f : List Nat) :
    (decode_raw_data s f).1.initial_contact_loading = s.initial_contact_loading := by
  simp only [decode_raw_data]
  split_ifs <;> rfl

/-- After bootstrap finalization the flag is always cleared, whether or not
it was set before. -/
theorem finalize_flag (s : DecoderState) :
    (finalize_initial_contacts s).1.initial_contact_loading = false := by
  simp only [finalize_initial_contacts]
  split_ifs with h
  · exact h
  · rfl

/-- One decode step can never set a cleared bootstrap flag again. -/
theorem decode_frame_flag (utf8 : List Nat → String) (printable : Char → Bool)
    (s : DecoderState) (f : List Nat) (h : s.initial_contact_loading = false) :
    (decode_frame utf8 printable s f).1.initial_contact_loading = false := by
  cases f with
  | nil => exact h
  | cons code rest =>
    simp only [decode_frame]
    generalize hs1 : ({ s with frames := s.frames + 1 } : DecoderState) = s1
    have h1 : s1.initial_contact_loading = false := by
      rw [← hs1]
      exact h
    by_cases h8 : code = 8
    · rw [if_pos h8, emitOpt_fst, decode_channel_message_flag]
      exact h1
    rw [if_neg h8]
    by_cases h16 : code = 16
    · rw [if_pos h16, emitOpt_fst, decode_0x10_message_flag]
      exact h1
    rw [if_neg h16]
    by_cases h17 : code = 17
    · rw [if_pos h17, emitOpt_fst, decode_0x11_message_flag]
      exact h1
    rw [if_neg h17]
    by_cases h7 : code = 7
    · rw [if_pos h7, emitOpt_fst, decode_direct_message_flag]
      exact h1
    rw [if_neg h7]
    by_cases h136 : code = 136
    · rw [if_pos h136, emitOpt_fst, decode_mesh_packet_flag]
      exact h1
    rw [if_neg h136]
    by_cases h128 : code = 128
    · rw [if_pos h128, emitOpt_fst, decode_advertisement_flag]
      exact h1
    rw [if_neg h128]
    by_cases h3 : code = 3
    · rw [if_pos h3, emitOpt_fst, decode_contact_flag]
      exact h1
    rw [if_neg h3]
    by_cases h4 : code = 4
    · rw [if_pos h4]
      exact finalize_flag s1
    rw [if_neg h4]
    by_cases h130 : code = 130
    · rw [if_pos h130, emitOpt_fst, decode_ack_flag]
      exact h1
    rw [if_neg h130]
    by_cases h132 : code = 132
    · rw [if_pos h132, emitOpt_fst, decode_raw_data_flag]
      exact h1
    rw [if_neg h132]
    by_cases h137 : code = 137
    · rw [if_pos h137]
      exact h1
    rw [if_neg h137]
    by_cases h131 : code = 131
    · rw [if_pos h131]
      exact h1
    rw [if_neg h131]
    exact h1

/-- C9: within one decoder session the bootstrap flag is monotonic: the
session starts in the bootstrapping state, and once the flag is cleared (the
transition to live, which `finalize_initial_contacts` performs at most once)
no sequence of further decode operations ever sets it back. -/
theorem bootstrap_flag_monotone (utf8 : List Nat → String) (printable : Char → Bool)
    (s : DecoderState) (l : List (List Nat)) (h : s.initial_contact_loading = false) :
    initState.initial_contact_loading = true ∧
    (decode_frames utf8 printable s l).initial_contact_loading = false := by
  refine ⟨rfl, ?_⟩
  induction l generalizing s with
  | nil => exact h
  | cons f fl ih =>
    simp only [decode_frames, List.foldl_cons]
    exact ih (decode_frame utf8 printable s f).1 (decode_frame_flag utf8 printable s f h)

/-- C9 witness: a live-state session stays live across a contact frame, an
end-of-contacts frame and a trace frame. -/
theorem bootstrap_flag_monotone_witness :
    ({ initState with initial_contact_loading := false } :
        DecoderState).initial_contact_loading = false ∧
    (initState.initial_contact_loading = true ∧
      (decode_frames utf8Stub printableStub
        { initState with initial_contact_loading := false }
        [[3], [4], [137]]).initial_contact_loading = false) :=
  ⟨rfl, bootstrap_flag_monotone utf8Stub printableStub
    { initState with initial_contact_loading := false } [[3], [4], [137]] rfl⟩

/-- C7: bootstrap finalization is idempotent.  From a bootstrapping state,
the first invocation emits exactly one contact-summary event — carrying the
total count, the per-type counts and the full pending list — and the second
invocation emits nothing and changes no state at all. -/
theorem finalize_idempotent (s : DecoderState) (h : s.initial_contact_loading = true) :
    (finalize_initial_contacts s).2 =
      [MeshEvent.contactSummary s.initial_contacts.length (countByType s.initial_contacts)
        s.initial_contacts] ∧
    finalize_initial_contacts (finalize_initial_contacts s).1 =
      ((finalize_initial_contacts s).1, []) := by
  constructor
  · simp [finalize_initial_contacts, h]
  · set t := (finalize_initial_contacts s).1 with ht
    have h2 : t.initial_contact_loading = false := finalize_flag s
    simp [finalize_initial_contacts, h2]

/-- C7 witness: finalizing a bootstrapping session holding one pending CHAT
contact emits the one summary event; finalizing again is a no-op. -/
theorem finalize_idempotent_witness :
    ({ initState with
        initial_contacts := [⟨"alice", "CHAT", "ab"⟩] } :
        DecoderState).initial_contact_loading = true ∧
    ((finalize_initial_contacts
        { initState with initial_contacts := [⟨"alice", "CHAT", "ab"⟩] }).2 =
      [MeshEvent.contactSummary
        ({ initState with
            initial_contacts := [⟨"alice", "CHAT", "ab"⟩] } :
            DecoderState).initial_contacts.length
        (countByType ({ initState with
            initial_contacts := [⟨"alice", "CHAT", "ab"⟩] } :
            DecoderState).initial_contacts)
        ({ initState with
            initial_contacts := [⟨"alice", "CHAT", "ab"⟩] } :
            DecoderState).initial_contacts] ∧
      finalize_initial_contacts
          (finalize_initial_contacts
            { initState with initial_contacts := [⟨"alice", "CHAT", "ab"⟩] }).1 =
        ((finalize_initial_contacts
            { initState with initial_contacts := [⟨"alice", "CHAT", "ab"⟩] }).1, [])) :=
  ⟨rfl, finalize_idempotent
    { initState with initial_contacts := [⟨"alice", "CHAT", "ab"⟩] } rfl⟩

/-- C6: a contact frame of at least the 100-byte minimum processed while
bootstrap is active updates the directory, appends to the pending list and
emits no event; the byte-identical frame processed after finalization
updates the directory the same way and emits exactly one contact event. -/
theorem contact_frame_phases (utf8 : List Nat → String) (printable : Char → Bool)
    (s : DecoderState) (rest : List Nat) (hlen : 99 ≤ rest.length) :
    decode_frame utf8 printable { s with initial_contact_loading := true } (3 :: rest) =
      ({ s with
          initial_contact_loading := true,
          frames := s.frames + 1,
          contacts := dictSet s.contacts
            ((contactRecOf utf8 (3 :: rest)).pubkey.take 12)
            (contactRecOf utf8 (3 :: rest)).name,
          initial_contacts := s.initial_contacts ++ [contactRecOf utf8 (3 :: rest)] },
       []) ∧
    decode_frame utf8 printable { s with initial_contact_loading := false } (3 :: rest) =
      ({ s with
          initial_contact_loading := false,
          frames := s.frames + 1,
          contacts := dictSet s.contacts
            ((contactRecOf utf8 (3 :: rest)).pubkey.take 12)
            (contactRecOf utf8 (3 :: rest)).name },
       [MeshEvent.contact (contactRecOf utf8 (3 :: rest)).pubkey
          (contactRecOf utf8 (3 :: rest)).name
          (contactRecOf utf8 (3 :: rest)).nodeType]) := by
  have hl : ¬ rest.length + 1 < 100 := by omega
  constructor <;> simp [decode_frame, emitOpt, decode_contact, hl]

/-- C6 witness: a 100-byte all-zero-payload contact frame, processed from the
initial (bootstrapping) state and from the corresponding live state. -/
theorem contact_frame_phases_witness :
    (99 ≤ (List.replicate 99 0).length) ∧
    (decode_frame utf8Stub printableStub
        { initState with initial_contact_loading := true } (3 :: List.replicate 99 0) =
      ({ initState with
          initial_contact_loading := true,
          frames := initState.frames + 1,
          contacts := dictSet initState.contacts
            ((contactRecOf utf8Stub (3 :: List.replicate 99 0)).pubkey.take 12)
            (contactRecOf utf8Stub (3 :: List.replicate 99 0)).name,
          initial_contacts := initState.initial_contacts ++
            [contactRecOf utf8Stub (3 :: List.replicate 99 0)] }, []) ∧
     decode_frame utf8Stub printableStub
        { initState with initial_contact_loading := false } (3 :: List.replicate 99 0) =
      ({ initState with
          initial_contact_loading := false,
          frames := initState.frames + 1,
          contacts := dictSet initState.contacts
            ((contactRecOf utf8Stub (3 :: List.replicate 99 0)).pubkey.take 12)
            (contactRecOf utf8Stub (3 :: List.replicate 99 0)).name },
       [MeshEvent.contact (contactRecOf utf8Stub (3 :: List.replicate 99 0)).pubkey
          (contactRecOf utf8Stub (3 :: List.replicate 99 0)).name
          (contactRecOf utf8Stub (3 :: List.replicate 99 0)).nodeType])) :=
  ⟨by simp, contact_frame_phases utf8Stub printableStub initState
    (List.replicate 99 0) (by simp)⟩

/-- The 14-byte truncated trace frame used for C2: the 12-byte header is
complete and declares pathLen = 3, but only two path-hash bytes
(0xA1, 0xB2) of the 3 + 4 trailing bytes are present. -/
def truncatedTrace : List Nat := [0x89, 0, 3, 0, 1, 0, 0, 0, 0, 0, 0, 0, 0xA1, 0xB2]

/-- C2 counterexample: on the truncated trace frame, two path-hash bytes are
present (`min pathLen (len - 12) = 2`), yet the decoded event's path-hash
list is empty, not the two-element best-effort list the claim requires. -/
theorem trace_truncated_counterexample :
    12 ≤ truncatedTrace.length ∧
    truncatedTrace.length <
      12 + truncatedTrace.getD 2 0 + (truncatedTrace.getD 2 0 + 1) ∧
    min (truncatedTrace.getD 2 0) (truncatedTrace.length - 12) = 2 ∧
    (decode_trace truncatedTrace).tracePathHashes = [] ∧
    (decode_trace truncatedTrace).tracePathHashes.length ≠ 2 := by
  refine ⟨by decide, by decide, by decide, ?_, ?_⟩ <;>
    simp [decode_trace, truncatedTrace, MeshEvent.tracePathHashes]

/-- C2 (amended): a trace frame of length at least 12 but short of the
expected total `12 + pathLen + (pathLen + 1)` still yields a structured
trace event with no error marker, but the trailing lists are filled
all-or-nothing, not byte-by-byte: the path-hash list holds all `pathLen`
entries when the whole hash region is present and is empty otherwise, and
the SNR list (whose region cannot be complete in a short frame) is empty. -/
theorem trace_truncated_all_or_nothing (f : List Nat) (h12 : 12 ≤ f.length)
    (hshort : f.length < 12 + f.getD 2 0 + (f.getD 2 0 + 1)) :
    (decode_trace f).isFullTrace = true ∧
    (decode_trace f).tracePathHashes =
      (if 12 + f.getD 2 0 ≤ f.length then ((f.drop 12).take (f.getD 2 0)).map byteHex
       else []) ∧
    (decode_trace f).tracePathSNRs = [] := by
  have hn : ¬ f.length < 12 := by omega
  have hsnr : ¬ 12 + f.getD 2 0 + (f.getD 2 0 + 1) ≤ f.length := by omega
  have hsnr2 : ¬ 12 + f[2]?.getD 0 + (f[2]?.getD 0 + 1) ≤ f.length := by
    simpa [List.getD_eq_getElem?_getD] using hsnr
  refine ⟨?_, ?_, ?_⟩ <;>
    simp [decode_trace, hn, hsnr2, MeshEvent.isFullTrace, MeshEvent.tracePathHashes,
      MeshEvent.tracePathSNRs]

/-- C2 witness: the truncated trace frame satisfies the hypotheses, and its
decode carries no error marker, an empty hash list (the hash region is
incomplete) and an empty SNR list. -/
theorem trace_truncated_all_or_nothing_witness :
    (12 ≤ truncatedTrace.length ∧
      truncatedTrace.length <
        12 + truncatedTrace.getD 2 0 + (truncatedTrace.getD 2 0 + 1)) ∧
    ((decode_trace truncatedTrace).isFullTrace = true ∧
      (decode_trace truncatedTrace).tracePathHashes =
        (if 12 + truncatedTrace.getD 2 0 ≤ truncatedTrace.length then
          ((truncatedTrace.drop 12).take (truncatedTrace.getD 2 0)).map byteHex
         else []) ∧
      (decode_trace truncatedTrace).tracePathSNRs = []) :=
  ⟨⟨by decide, by decide⟩,
    trace_truncated_all_or_nothing truncatedTrace (by decide) (by decide)⟩

/-- The 33-byte advertisement frame used for C3: opcode 0x80 followed by a
32-byte key of 0xAB bytes, looked up in an empty directory. -/
def advertExample : List Nat := 0x80 :: List.replicate 32 0xAB

/-- C3 counterexample: on a directory miss the advertisement decoder's
fallback name is the constant `"Unknown"` — not a truncated hex rendering of
the key: it differs from the truncated-hex convention the message decoders
use and is not a prefix of the key's hex rendering at all. -/
theorem advert_fallback_counterexample :
    (decode_advertisement initState advertExample).2.map MeshEvent.senderName =
      some "Unknown" ∧
    ((bytesToHex (List.replicate 32 0xAB)).take 8 ++ "...") ≠ "Unknown" ∧
    ("Unknown".data.isPrefixOf (bytesToHex (List.replicate 32 0xAB)).data) = false := by
  refine ⟨?_, by decide, by decide⟩
  simp [decode_advertisement, advertExample, initState, dictGet, MeshEvent.senderName]

/-- C3 (amended): every directory lookup in the decoder uses the
12-hex-character (6-byte) prefix of the relevant key and a miss yields the
deterministic caller-supplied fallback, never an error; the fallback is the
truncated hex `key[:8] ++ "..."` for the direct-message decoders (0x07 and
0x10), but the constant `"Unknown"` for the advertisement decoder (0x80). -/
theorem directory_lookup_fallbacks (utf8 : List Nat → String) (s : DecoderState)
    (f10 f07 f80 : List Nat)
    (h10 : 16 ≤ f10.length) (h07 : 13 ≤ f07.length) (h80 : 33 ≤ f80.length) :
    (decode_0x10_message utf8 s f10).2.map MeshEvent.senderName =
      some (dictGet s.contacts ((bytesToHex ((f10.drop 4).take 6)).take 12)
        ((bytesToHex ((f10.drop 4).take 6)).take 8 ++ "...")) ∧
    (decode_direct_message utf8 s f07).2.map MeshEvent.senderName =
      some (dictGet s.contacts ((bytesToHex ((f07.drop 1).take 6)).take 12)
        ((bytesToHex ((f07.drop 1).take 6)).take 8 ++ "...")) ∧
    (decode_advertisement s f80).2.map MeshEvent.senderName =
      some (dictGet s.contacts ((bytesToHex ((f80.drop 1).take 32)).take 12) "Unknown") := by
  have hn10 : ¬ f10.length < 16 := by omega
  have hn07 : ¬ f07.length < 13 := by omega
  have hn80 : ¬ f80.length < 33 := by omega
  refine ⟨?_, ?_, ?_⟩ <;>
    simp [decode_0x10_message, decode_direct_message, decode_advertisement,
      hn10, hn07, hn80, MeshEvent.senderName]

/-- C3 witness: minimum-length all-zero frames for each of the three
decoders, resolved against the empty directory of the initial state. -/
theorem directory_lookup_fallbacks_witness :
    (16 ≤ (List.replicate 16 0 : List Nat).length ∧
      13 ≤ (List.replicate 13 0 : List Nat).length ∧
      33 ≤ (List.replicate 33 0 : List Nat).length) ∧
    ((decode_0x10_message utf8Stub initState (List.replicate 16 0)).2.map
        MeshEvent.senderName =
      some (dictGet initState.contacts
        ((bytesToHex (((List.replicate 16 0 : List Nat)).drop 4 |>.take 6)).take 12)
        ((bytesToHex (((List.replicate 16 0 : List Nat)).drop 4 |>.take 6)).take 8 ++ "...")) ∧
     (decode_direct_message utf8Stub initState (List.replicate 13 0)).2.map
        MeshEvent.senderName =
      some (dictGet initState.contacts
        ((bytesToHex (((List.replicate 13 0 : List Nat)).drop 1 |>.take 6)).take 12)
        ((bytesToHex (((List.replicate 13 0 : List Nat)).drop 1 |>.take 6)).take 8 ++ "...")) ∧
     (decode_advertisement initState (List.replicate 33 0)).2.map MeshEvent.senderName =
      some (dictGet initState.contacts
        ((bytesToHex (((List.replicate 33 0 : List Nat)).drop 1 |>.take 32)).take 12)
        "Unknown")) :=
  ⟨⟨by decide, by decide, by decide⟩,
    directory_lookup_fallbacks utf8Stub initState
      (List.replicate 16 0) (List.replicate 13 0) (List.replicate 33 0)
      (by decide) (by decide) (by decide)⟩

/-- C4 counterexample: the mesh-packet frame `[0x88]` has a 0-byte payload —
shorter than 20 bytes, so the claim requires subtype BEACON — but the
emitted event carries no subtype at all. -/
theorem mesh_packet_counterexample :
    (decode_frame utf8Stub printableStub initState [0x88]).2 =
      [MeshEvent.meshPacket 0 "" none none none none] ∧
    (MeshEvent.meshPacket 0 "" none none none none).meshSubtype = none ∧
    (0 : Nat) < 20 ∧ (none : Option String) ≠ some "BEACON" := by
  refine ⟨?_, by decide, by decide, by decide⟩
  simp [decode_frame, emitOpt, decode_mesh_packet, bytesToHex, String.join, initState]

/-- C4 (amended): every mesh-packet frame emits exactly one mesh-packet
event; payloads of at least 2 bytes are classified into exactly one subtype
(longer than 100 bytes ADVERTISEMENT, shorter than 20 bytes BEACON,
otherwise DATA), while payloads of 0 or 1 bytes receive no subtype. -/
theorem mesh_packet_classification (utf8 : List Nat → String) (printable : Char → Bool)
    (s : DecoderState) (rest : List Nat) :
    (decode_frame utf8 printable s (0x88 :: rest)).2.map MeshEvent.meshSubtype =
      [if rest.length < 2 then none
       else if 100 < rest.length then some "ADVERTISEMENT"
       else if rest.length < 20 then some "BEACON"
       else some "DATA"] := by
  simp only [decode_frame]
  norm_num
  simp only [emitOpt, decode_mesh_packet, List.drop_succ_cons, List.drop_zero]
  split_ifs <;> simp [MeshEvent.meshSubtype]
